import Mathlib

/-!
Shallow embedding of `src/cl_get_device_info.cpp` from the Matlab-OpenCL
repository: a MEX entry point that resolves requested OpenCL device-property
names to typed queries, executes them against each enumerated device, and
marshals the results into a (num_props × num_devices) cell grid.

Machine integers are modelled as `Nat` with explicit `% 2^w` at each
fixed-width store; the C++ `std::string::erase` call that can raise
`std::out_of_range` is modelled by an `Option` result; backend calls are
modelled by per-shape response functions carried by each `Device`.
-/

namespace MatCL

/-! ### Constants from `CL/cl.h` and the `#define`s of the source file -/

def PTYPE_BOOL : Nat := 1
def PTYPE_CHAR : Nat := 2
def PTYPE_UINT : Nat := 3
def PTYPE_ULNG : Nat := 4
def PTYPE_SIZT : Nat := 5
def PTYPE_SZTA : Nat := 6
def PTYPE_PLFM : Nat := 0
def PTYPE_DEVC : Nat := 8

def CL_DEVICE_TYPE_DEFAULT : Nat := 1
def CL_DEVICE_TYPE_CPU : Nat := 2
def CL_DEVICE_TYPE_GPU : Nat := 4
def CL_DEVICE_TYPE_ACCELERATOR : Nat := 8
def CL_DEVICE_TYPE_CUSTOM : Nat := 16

def CL_DEVICE_TYPE : Nat := 0x1000
def CL_DEVICE_VENDOR_ID : Nat := 0x1001
def CL_DEVICE_MAX_COMPUTE_UNITS : Nat := 0x1002
def CL_DEVICE_MAX_WORK_ITEM_DIMENSIONS : Nat := 0x1003
def CL_DEVICE_MAX_WORK_GROUP_SIZE : Nat := 0x1004
def CL_DEVICE_MAX_WORK_ITEM_SIZES : Nat := 0x1005
def CL_DEVICE_PREFERRED_VECTOR_WIDTH_CHAR : Nat := 0x1006
def CL_DEVICE_PREFERRED_VECTOR_WIDTH_SHORT : Nat := 0x1007
def CL_DEVICE_PREFERRED_VECTOR_WIDTH_INT : Nat := 0x1008
def CL_DEVICE_PREFERRED_VECTOR_WIDTH_LONG : Nat := 0x1009
def CL_DEVICE_PREFERRED_VECTOR_WIDTH_FLOAT : Nat := 0x100A
def CL_DEVICE_PREFERRED_VECTOR_WIDTH_DOUBLE : Nat := 0x100B
def CL_DEVICE_MAX_CLOCK_FREQUENCY : Nat := 0x100C
def CL_DEVICE_ADDRESS_BITS : Nat := 0x100D
def CL_DEVICE_MAX_MEM_ALLOC_SIZE : Nat := 0x1010
def CL_DEVICE_MAX_PARAMETER_SIZE : Nat := 0x1017
def CL_DEVICE_GLOBAL_MEM_CACHELINE_SIZE : Nat := 0x101D
def CL_DEVICE_GLOBAL_MEM_CACHE_SIZE : Nat := 0x101E
def CL_DEVICE_GLOBAL_MEM_SIZE : Nat := 0x101F
def CL_DEVICE_MAX_CONSTANT_BUFFER_SIZE : Nat := 0x1020
def CL_DEVICE_MAX_CONSTANT_ARGS : Nat := 0x1021
def CL_DEVICE_LOCAL_MEM_SIZE : Nat := 0x1023
def CL_DEVICE_PROFILING_TIMER_RESOLUTION : Nat := 0x1025
def CL_DEVICE_AVAILABLE : Nat := 0x1027
def CL_DEVICE_COMPILER_AVAILABLE : Nat := 0x1028
def CL_DEVICE_NAME : Nat := 0x102B
def CL_DEVICE_VENDOR : Nat := 0x102C
def CL_DRIVER_VERSION : Nat := 0x102D
def CL_DEVICE_PROFILE : Nat := 0x102E
def CL_DEVICE_VERSION : Nat := 0x102F
def CL_DEVICE_EXTENSIONS : Nat := 0x1030
def CL_DEVICE_PLATFORM : Nat := 0x1031
def CL_DEVICE_PREFERRED_VECTOR_WIDTH_HALF : Nat := 0x1034
def CL_DEVICE_OPENCL_C_VERSION : Nat := 0x103D
def CL_DEVICE_LINKER_AVAILABLE : Nat := 0x103E
def CL_DEVICE_BUILT_IN_KERNELS : Nat := 0x103F
def CL_DEVICE_PRINTF_BUFFER_SIZE : Nat := 0x1049

/-- Modulus of a 64-bit store (`uint64_t`, `cl_ulong`, widened `size_t`). -/
def UINT64_MOD : Nat := 2 ^ 64

/-- Modulus of a 32-bit store (`uint32_t`, `cl_uint`). -/
def UINT32_MOD : Nat := 2 ^ 32

/-! ### Data model -/

/-- One OpenCL device, modelled by its responses to `getInfo` calls: one
response function per result shape used by the source's `switch`, indexed by
the `cl_device_info` key, plus the raw `cl_device_type` bitmask read by the
`PTYPE_DEVC` branch. -/
structure Device where
  boolVal : Nat → Bool
  uintVal : Nat → Nat
  ulongVal : Nat → Nat
  sizetVal : Nat → Nat
  sizetArr : Nat → List Nat
  strVal : Nat → String
  devType : Nat

/-- One cell of the input cell array: either a MATLAB char array (with its
text) or any other mxArray class (`mxIsChar` false). -/
inductive MxCell
  | charArr (s : String)
  | nonChar
deriving DecidableEq

/-- One right-hand-side argument of the MEX call: either a cell array
(`mxIsCell` true) holding its cells, or any other mxArray class. -/
inductive MxInput
  | cellArr (cells : List MxCell)
  | nonCell
deriving DecidableEq

/-- `mxIsChar` on a cell's contents. -/
def MxCell.isChar : MxCell → Bool
  | .charArr _ => true
  | .nonChar => false

/-- `mxArrayToString` on a cell's contents. The source only calls it after
validating that every cell is a char array, so the `nonChar` branch is
unreachable there; it is given a dummy value. -/
def mxArrayToString : MxCell → String
  | .charArr s => s
  | .nonChar => ""

/-- One marshalled output mxArray, as produced by the `switch` on
`prop_type`. -/
inductive ResultCell
  | uint64Scalar (v : Nat)
  | uint32Scalar (v : Nat)
  | logicalScalar (b : Bool)
  | uint64Vector (vs : List Nat)
  | charArr (s : String)
  | emptyDouble
deriving DecidableEq

/-- Observable backend interactions: device enumeration (`getOclDevices`,
i.e. `cl::Platform::get` plus per-platform `getDevices`), and a
`getInfo` query of key `num` on the device at index `i`. -/
inductive Event
  | enumDevices
  | getInfo (i : Nat) (num : Nat)
deriving DecidableEq

/-- Result of the whole MEX call: a structured named error
(`mexErrMsgIdAndTxt`), an uncaught C++ exception (the `std::out_of_range`
that `std::string::erase` can raise in the `PTYPE_DEVC` branch), or the
output cell matrix with its allocated dimensions. Grid cells are `none`
when still NULL (as allocated by `mxCreateCellMatrix`) and `some` once
written by `mxSetCell`. -/
inductive Outcome
  | errored (errId : String)
  | crashed
  | output (rows cols : Nat) (cells : List (Option ResultCell))
deriving DecidableEq

def NONCELL_ERRID : String := "MatCL:cl_get_device_info:NonCellInput"
def NONCHAR_ERRID : String := "MatCL:cl_get_device_info:NonCharInput"

/-! ### The engine -/

/-- `getOclDevices`: concatenate the devices of every platform, in platform
order (the source's `devs.insert(devs.end(), tmp.begin(), tmp.end())`
loop). -/
def getOclDevices (platforms : List (List Device)) : List Device :=
  platforms.foldl (fun devs p => devs ++ p) []

/-- The static name → (prop_type, prop_num) table, one entry per `strcmp`
line of the source, in source order (including the source's duplicated
`CL_DEVICE_MAX_PARAMETER_SIZE` line). -/
def propTable : List (String × Nat × Nat) :=
  [ ("CL_DEVICE_ADDRESS_BITS", PTYPE_UINT, CL_DEVICE_ADDRESS_BITS)
  , ("CL_DEVICE_AVAILABLE", PTYPE_BOOL, CL_DEVICE_AVAILABLE)
  , ("CL_DEVICE_BUILT_IN_KERNELS", PTYPE_CHAR, CL_DEVICE_BUILT_IN_KERNELS)
  , ("CL_DEVICE_COMPILER_AVAILABLE", PTYPE_BOOL, CL_DEVICE_COMPILER_AVAILABLE)
  , ("CL_DEVICE_EXTENSIONS", PTYPE_CHAR, CL_DEVICE_EXTENSIONS)
  , ("CL_DEVICE_GLOBAL_MEM_CACHE_SIZE", PTYPE_ULNG, CL_DEVICE_GLOBAL_MEM_CACHE_SIZE)
  , ("CL_DEVICE_GLOBAL_MEM_CACHELINE_SIZE", PTYPE_UINT, CL_DEVICE_GLOBAL_MEM_CACHELINE_SIZE)
  , ("CL_DEVICE_GLOBAL_MEM_SIZE", PTYPE_ULNG, CL_DEVICE_GLOBAL_MEM_SIZE)
  , ("CL_DEVICE_LINKER_AVAILABLE", PTYPE_BOOL, CL_DEVICE_LINKER_AVAILABLE)
  , ("CL_DEVICE_LOCAL_MEM_SIZE", PTYPE_ULNG, CL_DEVICE_LOCAL_MEM_SIZE)
  , ("CL_DEVICE_MAX_CLOCK_FREQUENCY", PTYPE_UINT, CL_DEVICE_MAX_CLOCK_FREQUENCY)
  , ("CL_DEVICE_MAX_COMPUTE_UNITS", PTYPE_UINT, CL_DEVICE_MAX_COMPUTE_UNITS)
  , ("CL_DEVICE_MAX_CONSTANT_ARGS", PTYPE_UINT, CL_DEVICE_MAX_CONSTANT_ARGS)
  , ("CL_DEVICE_MAX_CONSTANT_BUFFER_SIZE", PTYPE_ULNG, CL_DEVICE_MAX_CONSTANT_BUFFER_SIZE)
  , ("CL_DEVICE_MAX_MEM_ALLOC_SIZE", PTYPE_ULNG, CL_DEVICE_MAX_MEM_ALLOC_SIZE)
  , ("CL_DEVICE_MAX_PARAMETER_SIZE", PTYPE_ULNG, CL_DEVICE_MAX_PARAMETER_SIZE)
  , ("CL_DEVICE_MAX_WORK_GROUP_SIZE", PTYPE_SIZT, CL_DEVICE_MAX_WORK_GROUP_SIZE)
  , ("CL_DEVICE_MAX_WORK_ITEM_DIMENSIONS", PTYPE_UINT, CL_DEVICE_MAX_WORK_ITEM_DIMENSIONS)
  , ("CL_DEVICE_MAX_WORK_ITEM_SIZES", PTYPE_SZTA, CL_DEVICE_MAX_WORK_ITEM_SIZES)
  , ("CL_DEVICE_OPENCL_C_VERSION", PTYPE_CHAR, CL_DEVICE_OPENCL_C_VERSION)
  , ("CL_DEVICE_MAX_PARAMETER_SIZE", PTYPE_ULNG, CL_DEVICE_MAX_PARAMETER_SIZE)
  , ("CL_DEVICE_NAME", PTYPE_CHAR, CL_DEVICE_NAME)
  , ("CL_DEVICE_PREFERRED_VECTOR_WIDTH_CHAR", PTYPE_UINT, CL_DEVICE_PREFERRED_VECTOR_WIDTH_CHAR)
  , ("CL_DEVICE_PREFERRED_VECTOR_WIDTH_SHORT", PTYPE_UINT, CL_DEVICE_PREFERRED_VECTOR_WIDTH_SHORT)
  , ("CL_DEVICE_PREFERRED_VECTOR_WIDTH_INT", PTYPE_UINT, CL_DEVICE_PREFERRED_VECTOR_WIDTH_INT)
  , ("CL_DEVICE_PREFERRED_VECTOR_WIDTH_LONG", PTYPE_UINT, CL_DEVICE_PREFERRED_VECTOR_WIDTH_LONG)
  , ("CL_DEVICE_PREFERRED_VECTOR_WIDTH_FLOAT", PTYPE_UINT, CL_DEVICE_PREFERRED_VECTOR_WIDTH_FLOAT)
  , ("CL_DEVICE_PREFERRED_VECTOR_WIDTH_DOUBLE", PTYPE_UINT, CL_DEVICE_PREFERRED_VECTOR_WIDTH_DOUBLE)
  , ("CL_DEVICE_PREFERRED_VECTOR_WIDTH_HALF", PTYPE_UINT, CL_DEVICE_PREFERRED_VECTOR_WIDTH_HALF)
  , ("CL_DEVICE_PRINTF_BUFFER_SIZE", PTYPE_SIZT, CL_DEVICE_PRINTF_BUFFER_SIZE)
  , ("CL_DEVICE_PROFILE", PTYPE_CHAR, CL_DEVICE_PROFILE)
  , ("CL_DEVICE_PROFILING_TIMER_RESOLUTION", PTYPE_SIZT, CL_DEVICE_PROFILING_TIMER_RESOLUTION)
  , ("CL_DEVICE_VENDOR", PTYPE_CHAR, CL_DEVICE_VENDOR)
  , ("CL_DEVICE_VENDOR_ID", PTYPE_UINT, CL_DEVICE_VENDOR_ID)
  , ("CL_DEVICE_VERSION", PTYPE_CHAR, CL_DEVICE_VERSION)
  , ("CL_DRIVER_VERSION", PTYPE_CHAR, CL_DRIVER_VERSION)
  , ("CL_DEVICE_PLATFORM", PTYPE_PLFM, CL_DEVICE_PLATFORM)
  , ("CL_DEVICE_TYPE", PTYPE_DEVC, CL_DEVICE_TYPE)
  ]

/-- The source's `if (!strcmp(...)){prop_type = ...; prop_num = ...;}` chain:
`prop_type` starts at `0`; each matching line overwrites both variables.
(`prop_num` is never read when `prop_type` stays `0`, so initializing it to
`0` is observationally faithful to the uninitialized C variable.) -/
def resolveProp (name : String) : Nat × Nat :=
  propTable.foldl (fun acc ent => if name = ent.1 then ent.2 else acc) (0, 0)

/-- The same resolution chain with the source's duplicated
`CL_DEVICE_MAX_PARAMETER_SIZE` line (index 20 of `propTable`) removed. -/
def resolvePropDedup (name : String) : Nat × Nat :=
  (propTable.take 20 ++ propTable.drop 21).foldl
    (fun acc ent => if name = ent.1 then ent.2 else acc) (0, 0)

/-- The `PTYPE_DEVC` branch of the source's `switch`: compare the raw
`cl_device_type` value with `==` against each category constant in source
order, appending `label ++ " | "` on a match, then
`txt.erase(txt.length() - 3)`.  `std::string::erase(pos)` keeps the first
`pos` characters; when `txt` is shorter than 3 characters the `size_t`
position underflows past the length and `std::string::erase` raises
`std::out_of_range`, modelled as `none`. -/
def decode_class_mask (id : Nat) : Option String :=
  let txt := ""
  let txt := if id = CL_DEVICE_TYPE_CPU then txt ++ "cpu | " else txt
  let txt := if id = CL_DEVICE_TYPE_GPU then txt ++ "gpu | " else txt
  let txt := if id = CL_DEVICE_TYPE_ACCELERATOR then txt ++ "accelerator | " else txt
  let txt := if id = CL_DEVICE_TYPE_DEFAULT then txt ++ "default | " else txt
  let txt := if id = CL_DEVICE_TYPE_CUSTOM then txt ++ "custom | " else txt
  if txt.length < 3 then none
  else some (txt.take (txt.length - 3))

/-- Resolve one requested name and run the `switch` on `prop_type` for the
device at index `i`: the emitted `getInfo` events and the marshalled cell
(`none` when the `PTYPE_DEVC` branch raises). Branches appear in the
source's `case` order; `PTYPE_PLFM = 0` and unrecognized names both fall to
the `default` branch, which queries nothing and stores an empty 0×0 double
matrix. -/
def queryCell (dev : Device) (i : Nat) (name : String) :
    List Event × Option ResultCell :=
  let r := resolveProp name
  let prop_type := r.1
  let prop_num := r.2
  if prop_type = PTYPE_ULNG then
    ([Event.getInfo i prop_num],
      some (ResultCell.uint64Scalar (dev.ulongVal prop_num % UINT64_MOD)))
  else if prop_type = PTYPE_SIZT then
    ([Event.getInfo i prop_num],
      some (ResultCell.uint64Scalar (dev.sizetVal prop_num % UINT64_MOD)))
  else if prop_type = PTYPE_UINT then
    ([Event.getInfo i prop_num],
      some (ResultCell.uint32Scalar (dev.uintVal prop_num % UINT32_MOD)))
  else if prop_type = PTYPE_BOOL then
    ([Event.getInfo i prop_num],
      some (ResultCell.logicalScalar (dev.boolVal prop_num)))
  else if prop_type = PTYPE_SZTA then
    ([Event.getInfo i prop_num],
      some (ResultCell.uint64Vector
        ((dev.sizetArr prop_num).map (fun v => v % UINT64_MOD))))
  else if prop_type = PTYPE_CHAR then
    ([Event.getInfo i prop_num], some (ResultCell.charArr (dev.strVal prop_num)))
  else if prop_type = PTYPE_DEVC then
    ([Event.getInfo i prop_num],
      (decode_class_mask dev.devType).map ResultCell.charArr)
  else
    ([], some ResultCell.emptyDouble)

/-- Inner loop over the requested properties for the device at index `i`:
each iteration resolves, queries, and `mxSetCell`s the result at linear
index `j + i * num_props`; an uncaught exception aborts the run
(`none`). -/
def runProps (dev : Device) (i num_props : Nat) :
    List MxCell → Nat → List (Option ResultCell) →
    List Event × Option (List (Option ResultCell))
  | [], _, grid => ([], some grid)
  | c :: rest, j, grid =>
    let q := queryCell dev i (mxArrayToString c)
    match q.2 with
    | none => (q.1, none)
    | some v =>
      let r := runProps dev i num_props rest (j + 1) (grid.set (j + i * num_props) (some v))
      (q.1 ++ r.1, r.2)

/-- Outer loop over the devices, `i` being the index of the first device of
the remaining list. -/
def runDevs (num_props : Nat) (props : List MxCell) :
    List Device → Nat → List (Option ResultCell) →
    List Event × Option (List (Option ResultCell))
  | [], _, grid => ([], some grid)
  | d :: rest, i, grid =>
    let r := runProps d i num_props props 0 grid
    match r.2 with
    | none => (r.1, none)
    | some g =>
      let r2 := runDevs num_props props rest (i + 1) g
      (r.1 ++ r2.1, r2.2)

/-- The MEX entry point: enumerate devices (before any validation, as in the
source), validate that the first argument exists and is a cell array, then
that every cell is a char array, allocate the `num_props × devs.size()`
cell matrix, run the two nested loops, and return the grid. -/
def mexFunction (platforms : List (List Device)) (prhs : List MxInput) :
    List Event × Outcome :=
  let devs := getOclDevices platforms
  match prhs with
  | [] => ([Event.enumDevices], Outcome.errored NONCELL_ERRID)
  | MxInput.nonCell :: _ => ([Event.enumDevices], Outcome.errored NONCELL_ERRID)
  | MxInput.cellArr cells :: _ =>
    if cells.all MxCell.isChar then
      let num_props := cells.length
      let grid0 : List (Option ResultCell) :=
        List.replicate (num_props * devs.length) none
      let r := runDevs num_props cells devs 0 grid0
      match r.2 with
      | none => (Event.enumDevices :: r.1, Outcome.crashed)
      | some g => (Event.enumDevices :: r.1, Outcome.output num_props devs.length g)
    else
      ([Event.enumDevices], Outcome.errored NONCHAR_ERRID)

/-- The input-shape precondition checked by the source before the main
loops: at least one argument, the first a cell array, every cell a char
array. -/
def wellFormedInput (prhs : List MxInput) : Bool :=
  match prhs with
  | [] => false
  | MxInput.nonCell :: _ => false
  | MxInput.cellArr cells :: _ => cells.all MxCell.isChar

/-- A mock device (cf. the spec's "MockGPU" test case): every text query
answers "MockGPU", the size-array query reports three dimensions. -/
def mockDevice : Device where
  boolVal := fun _ => true
  uintVal := fun _ => 8
  ulongVal := fun _ => 1024
  sizetVal := fun _ => 256
  sizetArr := fun _ => [1, 2, 3]
  strVal := fun _ => "MockGPU"
  devType := 4

/-- A second mock device whose size-array query reports two dimensions. -/
def mockDevice2 : Device where
  boolVal := fun _ => false
  uintVal := fun _ => 4
  ulongVal := fun _ => 2048
  sizetVal := fun _ => 128
  sizetArr := fun _ => [5, 6]
  strVal := fun _ => "MockCPU"
  devType := 2

/-! ### Proof-support definitions: a closed form for the nested loops -/

/-- Write the values `vs` into consecutive slots of `grid` starting at
`base` (the effect of one inner loop's `mxSetCell` calls). -/
def setFrom (grid : List (Option ResultCell)) (base : Nat) :
    List ResultCell → List (Option ResultCell)
  | [] => grid
  | v :: vs => setFrom (grid.set base (some v)) (base + 1) vs

/-- The marshalled values of all requested properties on one device, `none`
as soon as one query raises. -/
def cellValues (dev : Device) (i : Nat) : List MxCell → Option (List ResultCell)
  | [] => some []
  | c :: rest =>
    match (queryCell dev i (mxArrayToString c)).2, cellValues dev i rest with
    | some v, some vs => some (v :: vs)
    | _, _ => none

/-! ### Lemmas about `setFrom` -/

theorem setFrom_length (vs : List ResultCell) :
    ∀ grid base, (setFrom grid base vs).length = grid.length := by
  induction vs with
  | nil => intro grid base; rfl
  | cons v vs ih =>
    intro grid base
    rw [setFrom, ih, List.length_set]

theorem setFrom_getElem?_lt (vs : List ResultCell) :
    ∀ grid base k, k < base → (setFrom grid base vs)[k]? = grid[k]? := by
  induction vs with
  | nil => intro grid base k _; rfl
  | cons v vs ih =>
    intro grid base k hk
    rw [setFrom, ih _ _ _ (Nat.lt_succ_of_lt hk),
      List.getElem?_set_ne (Nat.ne_of_gt hk)]

theorem setFrom_getElem?_ge (vs : List ResultCell) :
    ∀ grid base k, base + vs.length ≤ k → (setFrom grid base vs)[k]? = grid[k]? := by
  induction vs with
  | nil => intro grid base k _; rfl
  | cons v vs ih =>
    intro grid base k hk
    simp only [List.length_cons] at hk
    have hbk : base < k := by omega
    rw [setFrom, ih _ _ _ (by omega),
      List.getElem?_set_ne (Nat.ne_of_lt hbk)]

theorem setFrom_getElem?_at (vs : List ResultCell) :
    ∀ grid base t (ht : t < vs.length), base + t < grid.length →
      (setFrom grid base vs)[base + t]? = some (some (vs.get ⟨t, ht⟩)) := by
  induction vs with
  | nil => intro grid base t ht; exact absurd ht (by simp)
  | cons v vs ih =>
    intro grid base t ht hlt
    match t with
    | 0 =>
      simp only [Nat.add_zero] at hlt ⊢
      rw [setFrom, setFrom_getElem?_lt vs _ _ _ (by omega),
        List.getElem?_set_eq_of_lt _ (by omega)]
      simp
    | Nat.succ t =>
      have h1 : base + (t + 1) = (base + 1) + t := by omega
      have h2 : (base + 1) + t < (grid.set base (some v)).length := by
        rw [List.length_set]; omega
      rw [setFrom, h1, ih _ _ _ (by simpa using ht) h2]
      simp

/-! ### Lemmas about `cellValues` -/

theorem cellValues_some (dev : Device) (i : Nat) :
    ∀ props vals, cellValues dev i props = some vals →
      vals.length = props.length ∧
      ∀ j (hj : j < props.length),
        ∃ v, (queryCell dev i (mxArrayToString (props.get ⟨j, hj⟩))).2 = some v ∧
          vals[j]? = some v := by
  intro props
  induction props with
  | nil =>
    intro vals h
    rw [cellValues] at h
    cases h
    exact ⟨rfl, fun j hj => absurd hj (by simp)⟩
  | cons c rest ih =>
    intro vals h
    rw [cellValues] at h
    rcases hq : (queryCell dev i (mxArrayToString c)).2 with _ | v <;> rw [hq] at h
    · cases h
    · rcases hr : cellValues dev i rest with _ | vs <;> rw [hr] at h
      · cases h
      · cases h
        obtain ⟨hlen, hget⟩ := ih vs hr
        refine ⟨by simp [hlen], fun j hj => ?_⟩
        match j with
        | 0 => exact ⟨v, hq, by simp⟩
        | Nat.succ j =>
          obtain ⟨w, hw1, hw2⟩ := hget j (by simpa using hj)
          exact ⟨w, hw1, by simpa using hw2⟩

/-! ### Closed form of the inner loop -/

theorem runProps_grid (dev : Device) (i P : Nat) :
    ∀ props j grid,
      (runProps dev i P props j grid).2 =
        Option.map (fun vals => setFrom grid (j + i * P) vals)
          (cellValues dev i props) := by
  intro props
  induction props with
  | nil => intro j grid; rfl
  | cons c rest ih =>
    intro j grid
    rcases hq : (queryCell dev i (mxArrayToString c)).2 with _ | v
    · simp only [runProps, cellValues, hq]; rfl
    · rcases hr : cellValues dev i rest with _ | vs
      · simp only [runProps, cellValues, hq, hr, ih]; rfl
      · simp only [runProps, cellValues, hq, hr, ih, Option.map_some']
        have harith : j + 1 + i * P = j + i * P + 1 := by omega
        rw [harith]
        rfl

theorem runProps_nil (dev : Device) (i P j : Nat) (grid : List (Option ResultCell)) :
    runProps dev i P [] j grid = ([], some grid) := rfl

/-- With no requested properties, the outer loop does nothing. -/
theorem runDevs_nil_props (P : Nat) :
    ∀ devs i grid, runDevs P [] devs i grid = ([], some grid) := by
  intro devs
  induction devs with
  | nil => intro i grid; rfl
  | cons d rest ih =>
    intro i grid
    rw [runDevs]
    simp only [runProps_nil, ih]
    rfl

/-- Invariants of a successful outer loop: the grid keeps its length, cells
outside the written window are untouched, and the cell at linear index
`j + (i + t) * P` holds the marshalled value of property `j` on the device
at position `t`. -/
theorem runDevs_some (props : List MxCell) :
    ∀ devs i grid g,
      (runDevs props.length props devs i grid).2 = some g →
      g.length = grid.length ∧
      (∀ k, (∀ t, t < devs.length → ∀ j, j < props.length →
          k ≠ j + (i + t) * props.length) → g[k]? = grid[k]?) ∧
      (∀ t (ht : t < devs.length) j (hj : j < props.length),
        j + (i + t) * props.length < grid.length →
        ∃ v, (queryCell (devs.get ⟨t, ht⟩) (i + t)
                (mxArrayToString (props.get ⟨j, hj⟩))).2 = some v ∧
          g[j + (i + t) * props.length]? = some (some v)) := by
  intro devs
  induction devs with
  | nil =>
    intro i grid g h
    rw [runDevs] at h
    cases h
    exact ⟨rfl, fun k _ => rfl, fun t ht => absurd ht (by simp)⟩
  | cons d rest ih =>
    intro i grid g h
    rcases hr : (runProps d i props.length props 0 grid).2 with _ | g1
    · rw [runDevs] at h; rw [hr] at h; cases h
    · rw [runDevs] at h; rw [hr] at h
      simp only [] at h
      have hrg := runProps_grid d i props.length props 0 grid
      rw [hr] at hrg
      rcases hcv : cellValues d i props with _ | vals
      · rw [hcv] at hrg; cases hrg
      · rw [hcv] at hrg
        simp only [Option.map_some', Nat.zero_add] at hrg
        have hg1 : g1 = setFrom grid (i * props.length) vals := by
          injection hrg
        obtain ⟨hvlen, hvget⟩ := cellValues_some d i props vals hcv
        obtain ⟨ihlen, ihunt, ihat⟩ := ih (i + 1) g1 g h
        have hg1len : g1.length = grid.length := by
          rw [hg1, setFrom_length]
        refine ⟨ihlen.trans hg1len, ?_, ?_⟩
        · -- untouched cells
          intro k hk
          have htail : ∀ t, t < rest.length → ∀ j, j < props.length →
              k ≠ j + (i + 1 + t) * props.length := by
            intro t ht j hj
            have hinst := hk (t + 1) (by simp only [List.length_cons]; omega) j hj
            have heq : i + (t + 1) = i + 1 + t := by omega
            rw [heq] at hinst
            exact hinst
          rw [ihunt k htail, hg1]
          have hhead : ∀ j, j < props.length → k ≠ j + i * props.length := by
            intro j hj
            have hinst := hk 0 (by simp) j hj
            simp only [Nat.add_zero] at hinst
            exact hinst
          rcases Nat.lt_or_ge k (i * props.length) with hlt | hge
          · exact setFrom_getElem?_lt vals _ _ _ hlt
          · rcases Nat.lt_or_ge k (i * props.length + vals.length) with hlt2 | hge2
            · exfalso
              have hjlt : k - i * props.length < props.length := by omega
              exact hhead (k - i * props.length) hjlt (by omega)
            · exact setFrom_getElem?_ge vals _ _ _ (by omega)
        · -- each written cell
          intro t ht j hj hbound
          match t with
          | 0 =>
            simp only [Nat.add_zero] at hbound ⊢
            obtain ⟨v, hv1, hv2⟩ := hvget j hj
            refine ⟨v, hv1, ?_⟩
            have huntouched : ∀ t', t' < rest.length → ∀ j', j' < props.length →
                j + i * props.length ≠ j' + (i + 1 + t') * props.length := by
              intro t' ht' j' hj'
              have h1 : j + i * props.length < (i + 1) * props.length := by
                rw [Nat.succ_mul]; omega
              have h2 : (i + 1) * props.length ≤ (i + 1 + t') * props.length := by
                apply Nat.mul_le_mul_right
                omega
              omega
            rw [ihunt _ huntouched, hg1]
            have hcomm : j + i * props.length = i * props.length + j := by omega
            have hjv : j < vals.length := by rw [hvlen]; exact hj
            rw [hcomm, setFrom_getElem?_at vals _ _ _ hjv (by omega)]
            have : vals.get ⟨j, hjv⟩ = v := by
              have := List.getElem?_eq_getElem hjv
              rw [hv2] at this
              simp only [List.get_eq_getElem]
              exact (Option.some_injective _ this.symm)
            rw [this]
          | Nat.succ t =>
            have heq : i + (t + 1) = i + 1 + t := by omega
            rw [heq] at hbound ⊢
            have hbound1 : j + (i + 1 + t) * props.length < g1.length := by
              rw [hg1len]; exact hbound
            obtain ⟨v, hv1, hv2⟩ :=
              ihat t (by simpa using ht) j hj hbound1
            refine ⟨v, ?_, hv2⟩
            simpa using hv1

/-! ### Invariants of a successful call -/

theorem mexFunction_output_inv (platforms : List (List Device)) (cells : List MxCell)
    (rows cols : Nat) (g : List (Option ResultCell))
    (hout : (mexFunction platforms [MxInput.cellArr cells]).2 =
      Outcome.output rows cols g) :
    rows = cells.length ∧ cols = (getOclDevices platforms).length ∧
    (runDevs cells.length cells (getOclDevices platforms) 0
        (List.replicate (cells.length * (getOclDevices platforms).length)
          (none : Option ResultCell))).2 = some g := by
  cases hb : cells.all MxCell.isChar with
  | false => simp [mexFunction, hb] at hout
  | true =>
    simp only [mexFunction, hb, if_true] at hout
    rcases hrd : (runDevs cells.length cells (getOclDevices platforms) 0
        (List.replicate (cells.length * (getOclDevices platforms).length)
          (none : Option ResultCell))).2 with _ | g'
    · rw [hrd] at hout; simp at hout
    · rw [hrd] at hout
      simp only [Outcome.output.injEq] at hout
      obtain ⟨h1, h2, h3⟩ := hout
      exact ⟨h1.symm, h2.symm, congrArg some h3⟩

theorem mexFunction_grid (platforms : List (List Device)) (cells : List MxCell)
    (rows cols : Nat) (g : List (Option ResultCell))
    (hout : (mexFunction platforms [MxInput.cellArr cells]).2 =
      Outcome.output rows cols g) :
    rows = cells.length ∧ cols = (getOclDevices platforms).length ∧
    g.length = cells.length * (getOclDevices platforms).length ∧
    ∀ i (hi : i < (getOclDevices platforms).length) j (hj : j < cells.length),
      ∃ v, (queryCell ((getOclDevices platforms).get ⟨i, hi⟩) i
              (mxArrayToString (cells.get ⟨j, hj⟩))).2 = some v ∧
        g[j + i * cells.length]? = some (some v) := by
  obtain ⟨hrows, hcols, hrd⟩ := mexFunction_output_inv platforms cells rows cols g hout
  obtain ⟨hlen, _, hat⟩ := runDevs_some cells (getOclDevices platforms) 0 _ g hrd
  refine ⟨hrows, hcols, by simpa using hlen, ?_⟩
  intro i hi j hj
  have hbound : j + (0 + i) * cells.length <
      (List.replicate (cells.length * (getOclDevices platforms).length)
        (none : Option ResultCell)).length := by
    simp only [List.length_replicate, Nat.zero_add]
    have h1 : j + i * cells.length < (i + 1) * cells.length := by
      rw [Nat.succ_mul]; omega
    have h2 : (i + 1) * cells.length ≤
        (getOclDevices platforms).length * cells.length := by
      apply Nat.mul_le_mul_right
      omega
    have h3 : (getOclDevices platforms).length * cells.length =
        cells.length * (getOclDevices platforms).length := Nat.mul_comm _ _
    omega
  obtain ⟨v, hv1, hv2⟩ := hat i hi j hj hbound
  refine ⟨v, by simpa using hv1, by simpa using hv2⟩

/-- A fold over table entries none of which matches `name` returns the
accumulator unchanged. -/
theorem foldl_resolve_no_match (name : String) :
    ∀ (l : List (String × Nat × Nat)) (acc : Nat × Nat),
      (∀ ent ∈ l, name ≠ ent.1) →
      l.foldl (fun acc ent => if name = ent.1 then ent.2 else acc) acc = acc := by
  intro l
  induction l with
  | nil => intro acc _; rfl
  | cons e rest ih =>
    intro acc h
    rw [List.foldl_cons, if_neg (h e (List.mem_cons_self e rest))]
    exact ih acc (fun ent hm => h ent (List.mem_cons_of_mem e hm))

/-! ### Claim theorems -/

/-- C1: the claim states that the device-class decoder is total and returns
the empty string on the all-zero mask; the code instead erases three
characters from the then-empty label string, raising `std::out_of_range`
(modelled by `none`). This theorem evaluates the embedded code at the
failing input. -/
theorem C1_zero_mask_raises : decode_class_mask 0 = none := by decide

/-- C2: the claim states the decoder tests each category bit and joins the
labels, so the CPU+GPU mask should decode to "cpu | gpu"; the code compares
the raw value with `==` against each single category constant, so the
combined mask matches nothing and the trailing-strip erase raises
(modelled by `none`), while each single-category value decodes to its lone
label. -/
theorem C2_combined_mask_raises :
    decode_class_mask (CL_DEVICE_TYPE_CPU ||| CL_DEVICE_TYPE_GPU) = none ∧
    decode_class_mask CL_DEVICE_TYPE_CPU = some "cpu" ∧
    decode_class_mask CL_DEVICE_TYPE_GPU = some "gpu" := by
  exact ⟨by decide, by decide, by decide⟩

/-- C3 counterexample: on a malformed input (first argument not a cell
array) the call aborts with the named error, yet the backend has already
been contacted: the event trace of the aborted call contains the device
enumeration, refuting "no device is enumerated prior to the input-shape
check". -/
theorem C3_counterexample :
    wellFormedInput [MxInput.nonCell] = false ∧
    (mexFunction [[mockDevice]] [MxInput.nonCell]).2 = Outcome.errored NONCELL_ERRID ∧
    (mexFunction [[mockDevice]] [MxInput.nonCell]).1 = [Event.enumDevices] ∧
    Event.enumDevices ∈ (mexFunction [[mockDevice]] [MxInput.nonCell]).1 := by
  exact ⟨rfl, rfl, rfl, by simp [mexFunction]⟩

/-- C3 (amended): for every malformed requested-properties input the call
aborts with one of the two structured named errors and produces no output,
and no device property is queried before validation; however the device
directory is enumerated (`getOclDevices`) at entry, before the input-shape
check, so the trace of an aborted call is exactly the enumeration event. -/
theorem C3_validation_aborts (platforms : List (List Device)) (prhs : List MxInput)
    (h : wellFormedInput prhs = false) :
    ((mexFunction platforms prhs).2 = Outcome.errored NONCELL_ERRID ∨
      (mexFunction platforms prhs).2 = Outcome.errored NONCHAR_ERRID) ∧
    (mexFunction platforms prhs).1 = [Event.enumDevices] ∧
    ∀ i n, Event.getInfo i n ∉ (mexFunction platforms prhs).1 := by
  match prhs with
  | [] => exact ⟨Or.inl rfl, rfl, by intro i n; simp [mexFunction]⟩
  | MxInput.nonCell :: rest => exact ⟨Or.inl rfl, rfl, by intro i n; simp [mexFunction]⟩
  | MxInput.cellArr cells :: rest =>
    rw [wellFormedInput] at h
    refine ⟨Or.inr ?_, ?_, ?_⟩ <;> simp [mexFunction, h]

/-- C3 witness: a concrete malformed input (a cell array holding a non-char
element) aborts with the NonChar error and a trace of only the enumeration
event. -/
theorem C3_validation_aborts_witness :
    wellFormedInput [MxInput.cellArr [MxCell.nonChar]] = false ∧
    ((mexFunction [[mockDevice]] [MxInput.cellArr [MxCell.nonChar]]).2 =
        Outcome.errored NONCELL_ERRID ∨
      (mexFunction [[mockDevice]] [MxInput.cellArr [MxCell.nonChar]]).2 =
        Outcome.errored NONCHAR_ERRID) ∧
    (mexFunction [[mockDevice]] [MxInput.cellArr [MxCell.nonChar]]).1 =
      [Event.enumDevices] := by
  have h : wellFormedInput [MxInput.cellArr [MxCell.nonChar]] = false := rfl
  obtain ⟨h1, h2, _⟩ :=
    C3_validation_aborts [[mockDevice]] [MxInput.cellArr [MxCell.nonChar]] h
  exact ⟨h, h1, h2⟩

/-- C6: a property name absent from the static table resolves to the
sentinel (type tag 0), never fails, queries nothing, and yields the
explicit empty 0×0 double cell for every device, leaving every other grid
cell governed by its own property as usual. -/
theorem C6_unrecognized_name (name : String)
    (h : ∀ ent ∈ propTable, name ≠ ent.1) :
    resolveProp name = (0, 0) ∧
    (∀ dev i, queryCell dev i name = ([], some ResultCell.emptyDouble)) ∧
    ∀ platforms cells rows cols g,
      (mexFunction platforms [MxInput.cellArr cells]).2 = Outcome.output rows cols g →
      ∀ j (hj : j < cells.length), cells.get ⟨j, hj⟩ = MxCell.charArr name →
        ∀ i, ∀ hi : i < (getOclDevices platforms).length,
          g[j + i * cells.length]? = some (some ResultCell.emptyDouble) := by
  have hres : resolveProp name = (0, 0) :=
    foldl_resolve_no_match name propTable (0, 0) h
  have hq : ∀ dev i, queryCell dev i name = ([], some ResultCell.emptyDouble) := by
    intro dev i
    simp [queryCell, hres, PTYPE_ULNG, PTYPE_SIZT, PTYPE_UINT, PTYPE_BOOL,
      PTYPE_SZTA, PTYPE_CHAR, PTYPE_DEVC]
  refine ⟨hres, hq, ?_⟩
  intro platforms cells rows cols g hout j hj hcell i hi
  obtain ⟨_, _, _, hat⟩ := mexFunction_grid platforms cells rows cols g hout
  obtain ⟨v, hv1, hv2⟩ := hat i hi j hj
  rw [hcell] at hv1
  simp only [mxArrayToString] at hv1
  rw [hq _ i] at hv1
  simp only [Option.some.injEq] at hv1
  rw [← hv1] at hv2
  exact hv2

/-- C6 witness: the concrete name "NOT_A_PROPERTY" is absent from the
table, resolves to the sentinel, and yields the empty cell on a mock
device. -/
theorem C6_unrecognized_name_witness :
    (∀ ent ∈ propTable, "NOT_A_PROPERTY" ≠ ent.1) ∧
    resolveProp "NOT_A_PROPERTY" = (0, 0) ∧
    queryCell mockDevice 0 "NOT_A_PROPERTY" = ([], some ResultCell.emptyDouble) := by
  have h : ∀ ent ∈ propTable, ("NOT_A_PROPERTY" : String) ≠ ent.1 := by decide
  obtain ⟨h1, h2, _⟩ := C6_unrecognized_name "NOT_A_PROPERTY" h
  exact ⟨h, h1, h2 mockDevice 0⟩

/-- C7: requesting CL_DEVICE_PLATFORM resolves to the PTYPE_PLFM tag, which
equals 0 and therefore falls into the switch's default branch: no backend
query is issued and the cell is the explicit empty 0×0 double, for every
device — never an error. -/
theorem C7_platform_ref_empty :
    resolveProp "CL_DEVICE_PLATFORM" = (PTYPE_PLFM, CL_DEVICE_PLATFORM) ∧
    PTYPE_PLFM = 0 ∧
    ∀ dev i, queryCell dev i "CL_DEVICE_PLATFORM" =
      ([], some ResultCell.emptyDouble) := by
  have hres : resolveProp "CL_DEVICE_PLATFORM" = (PTYPE_PLFM, CL_DEVICE_PLATFORM) := by
    decide
  refine ⟨hres, rfl, ?_⟩
  intro dev i
  simp [queryCell, hres, PTYPE_PLFM, CL_DEVICE_PLATFORM, PTYPE_ULNG, PTYPE_SIZT,
    PTYPE_UINT, PTYPE_BOOL, PTYPE_SZTA, PTYPE_CHAR, PTYPE_DEVC]

/-- C10: with an empty requested-properties list and any device list the
call succeeds, returns the 0 × D grid (an empty cell list), and queries no
property on any device. -/
theorem C10_empty_request (platforms : List (List Device)) :
    (mexFunction platforms [MxInput.cellArr []]).2 =
      Outcome.output 0 (getOclDevices platforms).length [] ∧
    (mexFunction platforms [MxInput.cellArr []]).1 = [Event.enumDevices] ∧
    ∀ i n, Event.getInfo i n ∉ (mexFunction platforms [MxInput.cellArr []]).1 := by
  have hmex : mexFunction platforms [MxInput.cellArr []] =
      ([Event.enumDevices], Outcome.output 0 (getOclDevices platforms).length []) := by
    simp [mexFunction, runDevs_nil_props, Nat.zero_mul]
  refine ⟨by rw [hmex], by rw [hmex], ?_⟩
  intro i n
  rw [hmex]
  simp

/-- C4: a successful call with P requested properties and D devices returns
a grid allocated as exactly P rows by D columns, holding exactly P·D cells,
every one of which has been written (no NULL cells dropped, none extra). -/
theorem C4_grid_dimensions (platforms : List (List Device)) (cells : List MxCell)
    (rows cols : Nat) (g : List (Option ResultCell))
    (hout : (mexFunction platforms [MxInput.cellArr cells]).2 =
      Outcome.output rows cols g) :
    rows = cells.length ∧ cols = (getOclDevices platforms).length ∧
    g.length = rows * cols ∧
    ∀ k, k < g.length → ∃ v, g[k]? = some (some v) := by
  obtain ⟨hrows, hcols, hlen, hat⟩ := mexFunction_grid platforms cells rows cols g hout
  refine ⟨hrows, hcols, by rw [hlen, hrows, hcols], ?_⟩
  intro k hk
  rw [hlen] at hk
  rcases Nat.eq_zero_or_pos cells.length with h0 | hP
  · rw [h0, Nat.zero_mul] at hk
    exact absurd hk (Nat.not_lt_zero k)
  · have hj : k % cells.length < cells.length := Nat.mod_lt _ hP
    have hi : k / cells.length < (getOclDevices platforms).length :=
      Nat.div_lt_of_lt_mul hk
    obtain ⟨v, _, hv2⟩ := hat (k / cells.length) hi (k % cells.length) hj
    have hdecomp := Nat.mod_add_div k cells.length
    rw [Nat.mul_comm cells.length (k / cells.length)] at hdecomp
    rw [hdecomp] at hv2
    exact ⟨v, hv2⟩

/-- C4 witness: a concrete call with two requested names (one recognized,
one not) on one device returns the fully written 2×1 grid. -/
theorem C4_grid_dimensions_witness :
    (mexFunction [[mockDevice]]
        [MxInput.cellArr [MxCell.charArr "CL_DEVICE_NAME", MxCell.charArr "BOGUS"]]).2 =
      Outcome.output 2 1
        [some (ResultCell.charArr "MockGPU"), some ResultCell.emptyDouble] ∧
    (2 = [MxCell.charArr "CL_DEVICE_NAME", MxCell.charArr "BOGUS"].length ∧
      1 = (getOclDevices [[mockDevice]]).length ∧
      ([some (ResultCell.charArr "MockGPU"),
        some ResultCell.emptyDouble] : List (Option ResultCell)).length = 2 * 1 ∧
      ∀ k, k < ([some (ResultCell.charArr "MockGPU"),
          some ResultCell.emptyDouble] : List (Option ResultCell)).length →
        ∃ v, ([some (ResultCell.charArr "MockGPU"),
          some ResultCell.emptyDouble] : List (Option ResultCell))[k]? = some (some v)) := by
  have h : (mexFunction [[mockDevice]]
      [MxInput.cellArr [MxCell.charArr "CL_DEVICE_NAME", MxCell.charArr "BOGUS"]]).2 =
      Outcome.output 2 1
        [some (ResultCell.charArr "MockGPU"), some ResultCell.emptyDouble] := by decide
  exact ⟨h, C4_grid_dimensions [[mockDevice]]
    [MxCell.charArr "CL_DEVICE_NAME", MxCell.charArr "BOGUS"] 2 1 _ h⟩

/-- C5: in a successful call, the cell at linear index
`j + i * num_props` (property-major placement) holds the value resolved for
property j on device i, property and device order mirroring the input
orders. -/
theorem C5_property_major_placement (platforms : List (List Device)) (cells : List MxCell)
    (rows cols : Nat) (g : List (Option ResultCell))
    (hout : (mexFunction platforms [MxInput.cellArr cells]).2 =
      Outcome.output rows cols g) :
    ∀ i (hi : i < (getOclDevices platforms).length) j (hj : j < cells.length),
      ∃ v, (queryCell ((getOclDevices platforms).get ⟨i, hi⟩) i
              (mxArrayToString (cells.get ⟨j, hj⟩))).2 = some v ∧
        g[j + i * cells.length]? = some (some v) :=
  (mexFunction_grid platforms cells rows cols g hout).2.2.2

/-- C5 witness: on a concrete two-device, two-property call, the cell at
linear index 0 + 1·2 holds the value of property 0 on device 1. -/
theorem C5_property_major_placement_witness :
    (mexFunction [[mockDevice, mockDevice2]]
        [MxInput.cellArr [MxCell.charArr "CL_DEVICE_MAX_WORK_ITEM_SIZES",
          MxCell.charArr "CL_DEVICE_NAME"]]).2 =
      Outcome.output 2 2
        [some (ResultCell.uint64Vector [1, 2, 3]), some (ResultCell.charArr "MockGPU"),
          some (ResultCell.uint64Vector [5, 6]), some (ResultCell.charArr "MockCPU")] ∧
    ∃ v, (queryCell mockDevice2 1 "CL_DEVICE_MAX_WORK_ITEM_SIZES").2 = some v ∧
      ([some (ResultCell.uint64Vector [1, 2, 3]), some (ResultCell.charArr "MockGPU"),
        some (ResultCell.uint64Vector [5, 6]),
        some (ResultCell.charArr "MockCPU")] : List (Option ResultCell))[0 + 1 * 2]? =
        some (some v) := by
  have h : (mexFunction [[mockDevice, mockDevice2]]
      [MxInput.cellArr [MxCell.charArr "CL_DEVICE_MAX_WORK_ITEM_SIZES",
        MxCell.charArr "CL_DEVICE_NAME"]]).2 =
      Outcome.output 2 2
        [some (ResultCell.uint64Vector [1, 2, 3]), some (ResultCell.charArr "MockGPU"),
          some (ResultCell.uint64Vector [5, 6]),
          some (ResultCell.charArr "MockCPU")] := by decide
  have happ := C5_property_major_placement [[mockDevice, mockDevice2]]
    [MxCell.charArr "CL_DEVICE_MAX_WORK_ITEM_SIZES", MxCell.charArr "CL_DEVICE_NAME"]
    2 2 _ h 1 (by decide) 0 (by decide)
  exact ⟨h, happ⟩

/-- C8: property-name resolution is deterministic and duplication-tolerant:
removing the table's duplicated CL_DEVICE_MAX_PARAMETER_SIZE entry changes
no resolution, and a name requested at two positions of the same request
list produces identical cells on every device. -/
theorem C8_duplication_tolerant :
    (∀ name, resolveProp name = resolvePropDedup name) ∧
    (∀ platforms cells rows cols (g : List (Option ResultCell)),
      (mexFunction platforms [MxInput.cellArr cells]).2 = Outcome.output rows cols g →
      ∀ j1 (hj1 : j1 < cells.length) j2 (hj2 : j2 < cells.length),
        cells.get ⟨j1, hj1⟩ = cells.get ⟨j2, hj2⟩ →
        ∀ i, i < (getOclDevices platforms).length →
          g[j1 + i * cells.length]? = g[j2 + i * cells.length]?) := by
  constructor
  · intro name
    by_cases hname : name = "CL_DEVICE_MAX_PARAMETER_SIZE"
    · subst hname; decide
    · have hsplit : propTable = propTable.take 20 ++
          ("CL_DEVICE_MAX_PARAMETER_SIZE", PTYPE_ULNG, CL_DEVICE_MAX_PARAMETER_SIZE) ::
            propTable.drop 21 := by rfl
      simp only [resolveProp, resolvePropDedup]
      conv_lhs => rw [hsplit]
      rw [List.foldl_append, List.foldl_cons, List.foldl_append]
      congr 1
      simp [hname]
  · intro platforms cells rows cols g hout j1 hj1 j2 hj2 heq i hi
    obtain ⟨_, _, _, hat⟩ := mexFunction_grid platforms cells rows cols g hout
    obtain ⟨v1, hv11, hv12⟩ := hat i hi j1 hj1
    obtain ⟨v2, hv21, hv22⟩ := hat i hi j2 hj2
    rw [heq] at hv11
    have hv : some v1 = some v2 := hv11.symm.trans hv21
    injection hv with hv
    rw [hv12, hv22, hv]

/-- C8 witness: the duplicated table name resolves equally with and without
the duplicate entry, and requesting CL_DEVICE_NAME twice on one device
produces two identical cells. -/
theorem C8_duplication_tolerant_witness :
    resolveProp "CL_DEVICE_MAX_PARAMETER_SIZE" =
      resolvePropDedup "CL_DEVICE_MAX_PARAMETER_SIZE" ∧
    (mexFunction [[mockDevice]]
        [MxInput.cellArr [MxCell.charArr "CL_DEVICE_NAME",
          MxCell.charArr "CL_DEVICE_NAME"]]).2 =
      Outcome.output 2 1
        [some (ResultCell.charArr "MockGPU"), some (ResultCell.charArr "MockGPU")] ∧
    ([some (ResultCell.charArr "MockGPU"),
      some (ResultCell.charArr "MockGPU")] : List (Option ResultCell))[0 + 0 * 2]? =
      ([some (ResultCell.charArr "MockGPU"),
        some (ResultCell.charArr "MockGPU")] : List (Option ResultCell))[1 + 0 * 2]? := by
  have h : (mexFunction [[mockDevice]]
      [MxInput.cellArr [MxCell.charArr "CL_DEVICE_NAME",
        MxCell.charArr "CL_DEVICE_NAME"]]).2 =
      Outcome.output 2 1
        [some (ResultCell.charArr "MockGPU"), some (ResultCell.charArr "MockGPU")] := by
    decide
  refine ⟨C8_duplication_tolerant.1 "CL_DEVICE_MAX_PARAMETER_SIZE", h, ?_⟩
  exact C8_duplication_tolerant.2 [[mockDevice]]
    [MxCell.charArr "CL_DEVICE_NAME", MxCell.charArr "CL_DEVICE_NAME"]
    2 1 _ h 0 (by decide) 1 (by decide) (by decide) 0 (by decide)

/-- C9: a name that resolves to the size-array tag always yields a vector
cell whose elements are the backend-reported sequence widened to 64 bits,
whose length is exactly the backend-reported length for that device, and
two devices reporting different lengths yield cells of different
lengths. -/
theorem C9_size_array_shape (name : String) (num : Nat)
    (hres : resolveProp name = (PTYPE_SZTA, num)) :
    ∀ (dev : Device) (i : Nat),
      (queryCell dev i name).2 =
        some (ResultCell.uint64Vector
          ((dev.sizetArr num).map (fun v => v % UINT64_MOD))) ∧
      ((dev.sizetArr num).map (fun v => v % UINT64_MOD)).length =
        (dev.sizetArr num).length ∧
      ∀ (dev2 : Device) (i2 : Nat) vs vs2,
        (queryCell dev i name).2 = some (ResultCell.uint64Vector vs) →
        (queryCell dev2 i2 name).2 = some (ResultCell.uint64Vector vs2) →
        (dev.sizetArr num).length ≠ (dev2.sizetArr num).length →
        vs.length ≠ vs2.length := by
  have hq : ∀ (d : Device) (k : Nat), (queryCell d k name).2 =
      some (ResultCell.uint64Vector
        ((d.sizetArr num).map (fun v => v % UINT64_MOD))) := by
    intro d k
    simp [queryCell, hres, PTYPE_ULNG, PTYPE_SIZT, PTYPE_UINT, PTYPE_BOOL,
      PTYPE_SZTA, PTYPE_CHAR, PTYPE_DEVC]
  intro dev i
  refine ⟨hq dev i, by simp, ?_⟩
  intro dev2 i2 vs vs2 h1 h2 hne
  rw [hq dev i] at h1
  rw [hq dev2 i2] at h2
  simp only [Option.some.injEq, ResultCell.uint64Vector.injEq] at h1 h2
  subst h1
  subst h2
  simpa using hne

/-- C9 witness: CL_DEVICE_MAX_WORK_ITEM_SIZES resolves to the size-array
tag; the two mock devices report three and two dimensions and their cells
have those exact lengths. -/
theorem C9_size_array_shape_witness :
    resolveProp "CL_DEVICE_MAX_WORK_ITEM_SIZES" =
      (PTYPE_SZTA, CL_DEVICE_MAX_WORK_ITEM_SIZES) ∧
    (queryCell mockDevice 0 "CL_DEVICE_MAX_WORK_ITEM_SIZES").2 =
      some (ResultCell.uint64Vector [1, 2, 3]) ∧
    (queryCell mockDevice2 1 "CL_DEVICE_MAX_WORK_ITEM_SIZES").2 =
      some (ResultCell.uint64Vector [5, 6]) ∧
    ([1, 2, 3] : List Nat).length ≠ ([5, 6] : List Nat).length := by
  have hres : resolveProp "CL_DEVICE_MAX_WORK_ITEM_SIZES" =
      (PTYPE_SZTA, CL_DEVICE_MAX_WORK_ITEM_SIZES) := by decide
  refine ⟨hres, ?_, ?_, by decide⟩
  · rw [(C9_size_array_shape "CL_DEVICE_MAX_WORK_ITEM_SIZES"
      CL_DEVICE_MAX_WORK_ITEM_SIZES hres mockDevice 0).1]
    decide
  · rw [(C9_size_array_shape "CL_DEVICE_MAX_WORK_ITEM_SIZES"
      CL_DEVICE_MAX_WORK_ITEM_SIZES hres mockDevice2 1).1]
    decide

end MatCL
